import Mathlib

/-!
Shallow embedding of the Video-Audio-RAG pipeline (Src/audio_extractor.py,
Src/transcriber.py, Src/database.py, Src/vector_store.py, Src/video_pipeline.py,
Src/rag_chat.py).

Conventions of the embedding:
* Python floats that hold exact second values (always integer milliseconds
  divided by 1000 in this code base) are modelled as rationals.
* External services (moviepy decode, pydub load, whisper, the embedding engine,
  the chat model, the text splitter) are oracles passed in as parameters; a call
  that may raise is modelled as an Except value.
* A Python runtime tuple is modelled as a list of dynamic values, so that
  tuple-unpacking arity errors are representable.
* Stateful stores (SQLAlchemy session, Chroma collection) are explicit record
  states threaded through the functions.
-/

/-- Python exceptions that the modelled code can raise. -/
inductive PyError where
  | valueError
  | unboundLocal
  | runtime (msg : String)
deriving DecidableEq, Repr

/-- The message text of an exception, as Python str(e) would render it. -/
def PyError.str : PyError → String
  | .valueError => "not enough values to unpack (expected 4, got 3)"
  | .unboundLocal => "cannot access local variable db_sucess where it is not associated with a value"
  | .runtime m => m

/-- A dynamically typed Python value, as stored in a runtime tuple. -/
inductive PyVal where
  | vstr (s : String)
  | vrat (q : ℚ)
deriving DecidableEq, Repr

def PyVal.asStr : PyVal → String
  | .vstr s => s
  | .vrat q => toString q

def PyVal.asRat : PyVal → ℚ
  | .vrat q => q
  | .vstr _ => 0

/-! ## Audio extractor (Src/audio_extractor.py) -/

/-- One element of the list returned by AudioExtractor.split_audio:
the tuple (chunk_path, start_time, end_time), times in seconds. -/
structure AudioChunk where
  path : String
  start_time : ℚ
  end_time : ℚ
deriving DecidableEq, Repr

/-- num_chunks = math.ceil(duration_in_seconds / chunk_length) with
duration_in_seconds = len(audio) / 1000, len(audio) in milliseconds. -/
def num_chunks (lenMs L : Nat) : Nat :=
  (⌈((lenMs : ℚ) / 1000) / (L : ℚ)⌉).toNat

/-- The loop body of split_audio for index i: start_ms = i*chunk_length*1000,
end_ms = min(len(audio), (i+1)*chunk_length*1000), chunk path stem_i.wav,
times converted back to seconds. -/
def chunk_at (lenMs L : Nat) (stem : String) (i : Nat) : AudioChunk :=
  { path := stem ++ "_" ++ toString i ++ ".wav"
    start_time := ((i * L * 1000 : Nat) : ℚ) / 1000
    end_time := ((min lenMs ((i + 1) * L * 1000) : Nat) : ℚ) / 1000 }

/-- The chunks list built by split_audio when nothing raises. -/
def split_chunks (lenMs L : Nat) (stem : String) : List AudioChunk :=
  (List.range (num_chunks lenMs L)).map (chunk_at lenMs L stem)

/-- AudioExtractor.split_audio.  The whole body is inside try/except; the
except branch only logs, so the function falls through and implicitly returns
None (modelled as none).  Exception sources: AudioSegment.from_file (the load
oracle), division by a zero chunk length, and chunk.export (the exportOk
oracle, indexed by chunk number). -/
def split_audio (load : Except PyError Nat) (exportOk : Nat → Bool) (L : Nat)
    (stem : String) : Option (List AudioChunk) :=
  match load with
  | .error _ => none
  | .ok lenMs =>
    if L = 0 then none
    else if (List.range (num_chunks lenMs L)).all exportOk then
      some (split_chunks lenMs L stem)
    else none

/-- The runtime tuple (chunk_path, start_time, end_time) appended by
split_audio: a 3-tuple. -/
def chunkToPyTuple (c : AudioChunk) : List PyVal :=
  [PyVal.vstr c.path, PyVal.vrat c.start_time, PyVal.vrat c.end_time]

/-! ## Transcriber (Src/transcriber.py) -/

/-- Python int(x): truncation toward zero. -/
def pyint (q : ℚ) : Int := if q < 0 then ⌈q⌉ else ⌊q⌋

/-- Python float modulo: a % b = a - b * (a // b) with floor division. -/
def pymod (a b : ℚ) : ℚ := a - b * ⌊a / b⌋

/-- hours = int(time // 3600): floor division then int conversion. -/
def format_hours (time : ℚ) : Int := ⌊time / 3600⌋

/-- minutes = int((time % 3600) // 60). -/
def format_minutes (time : ℚ) : Int := ⌊pymod time 3600 / 60⌋

/-- secs = int(time % 60): int() truncation applied to the modulo result. -/
def format_secs (time : ℚ) : Int := pyint (pymod time 60)

/-- The field formatting 02d: zero-pad a nonnegative single digit to width 2;
other values print as-is. -/
def pad2 (n : Int) : String := if 0 ≤ n ∧ n < 10 then "0" ++ toString n else toString n

/-- Transcriber.format_time: seconds to HH:MM:SS. -/
def format_time (time : ℚ) : String :=
  pad2 (format_hours time) ++ ":" ++ pad2 (format_minutes time) ++ ":" ++ pad2 (format_secs time)

/-- The dictionary built by Transcriber.transcribe_chunk. -/
structure TChunkResult where
  text : String
  start_time : ℚ
  end_time : ℚ
  duration : ℚ
  start_formatted : String
  end_formatted : String
deriving DecidableEq, Repr

/-- The dictionary after transcribe_all_chunks adds chunk_index and
audio_name. -/
structure TranscriptionResult extends TChunkResult where
  chunk_index : Nat
  audio_name : String
deriving DecidableEq, Repr

/-- Transcriber.transcribe_chunk: calls the whisper service (which may raise;
the exception is re-raised) and assembles the result dictionary. -/
def transcribe_chunk (whisper : String → Except PyError String) (audio_path : String)
    (start_time end_time : ℚ) : Except PyError TChunkResult := do
  let transcript ← whisper audio_path
  .ok { text := transcript, start_time := start_time, end_time := end_time,
        duration := end_time - start_time,
        start_formatted := format_time start_time,
        end_formatted := format_time end_time }

/-- Tuple unpacking (audio_path, start_time, end_time, audio_name) = t:
raises ValueError unless t has exactly four components. -/
def unpack4 (t : List PyVal) : Except PyError (PyVal × PyVal × PyVal × PyVal) :=
  match t with
  | [a, b, c, d] => .ok (a, b, c, d)
  | _ => .error .valueError

/-- The loop of Transcriber.transcribe_all_chunks, carrying the enumerate
index i.  Any exception aborts the loop and propagates. -/
def transcribe_go (whisper : String → Except PyError String) (i : Nat) :
    List (List PyVal) → Except PyError (List TranscriptionResult)
  | [] => .ok []
  | t :: rest => do
    let (audio_path, start_time, end_time, audio_name) ← unpack4 t
    let r ← transcribe_chunk whisper audio_path.asStr start_time.asRat end_time.asRat
    let tail ← transcribe_go whisper (i + 1) rest
    .ok ({ toTChunkResult := r, chunk_index := i, audio_name := audio_name.asStr } :: tail)

/-- Transcriber.transcribe_all_chunks. -/
def transcribe_all_chunks (whisper : String → Except PyError String)
    (chunks : List (List PyVal)) : Except PyError (List TranscriptionResult) :=
  transcribe_go whisper 0 chunks

/-! ## Metadata store (Src/database.py) -/

/-- A row of the video_metadata table (id/status/timestamp columns elided:
id is never read back by the modelled code and status is the constant
string completed). -/
structure VideoRow where
  video_name : String
  original_path : String
  total_chunks : Nat
  total_duration : ℚ
deriving DecidableEq, Repr

/-- A row of the transcript_chunks table (id/created_date elided as above). -/
structure ChunkRow where
  video_name : String
  chunk_index : Nat
  start_time : ℚ
  end_time : ℚ
  start_formatted : String
  end_formatted : String
  text : String
  char_count : Nat
  vector_id : Option String
deriving DecidableEq, Repr

/-- The relational store: both tables, rows in insertion order. -/
structure DBState where
  videos : List VideoRow
  chunks : List ChunkRow
deriving DecidableEq, Repr

/-- Database.get_video_by_name: first row filtered by name. -/
def Database.get_video_by_name (db : DBState) (video_name : String) : Option VideoRow :=
  db.videos.find? (fun v => v.video_name == video_name)

/-- Database.video_exists. -/
def Database.video_exists (db : DBState) (video_name : String) : Bool :=
  (Database.get_video_by_name db video_name).isSome

/-- Database.add_video: insert; the unique constraint on video_name makes the
commit raise (re-raised after rollback) when the name is already present. -/
def Database.add_video (db : DBState) (row : VideoRow) : Except PyError DBState :=
  if Database.video_exists db row.video_name then
    .error (.runtime "UNIQUE constraint failed: video_metadata.video_name")
  else .ok { db with videos := db.videos ++ [row] }

/-- Database.add_transcript_chunk: unconditionally inserts one chunk row,
char_count = len(text), chunk_index = chunk_data.get(chunk_index, 0);
no uniqueness constraint guards chunk_index. -/
def Database.add_transcript_chunk (db : DBState) (video_name : String)
    (chunk_data : TranscriptionResult) (vector_id : Option String) : DBState :=
  { db with chunks := db.chunks ++ [{
      video_name := video_name
      vector_id := vector_id
      text := chunk_data.text
      start_time := chunk_data.start_time
      end_time := chunk_data.end_time
      start_formatted := chunk_data.start_formatted
      end_formatted := chunk_data.end_formatted
      char_count := chunk_data.text.length
      chunk_index := chunk_data.chunk_index }] }

/-- Database.delete_video: deletes all chunk rows for the name, then the video
row, and returns True (the except branch has no exception source in the
model). -/
def Database.delete_video (db : DBState) (video_name : String) : Bool × DBState :=
  (true, { videos := db.videos.filter (fun v => v.video_name != video_name)
           chunks := db.chunks.filter (fun c => c.video_name != video_name) })

/-- A list of chunk indices is strictly increasing (hence all distinct). -/
def strictlyIncreasing : List Nat → Bool
  | [] => true
  | [_] => true
  | a :: b :: rest => decide (a < b) && strictlyIncreasing (b :: rest)

/-- The spec invariant on the transcript chunk rows stored for one video:
their chunk indices, in row insertion order, are unique and increasing. -/
def chunkIndicesOK (db : DBState) (video_name : String) : Bool :=
  strictlyIncreasing
    ((db.chunks.filter (fun c => c.video_name == video_name)).map ChunkRow.chunk_index)

/-! ## Vector store (Src/vector_store.py) -/

/-- One Chroma entry: a sub-chunk text plus the metadata dictionary attached
by VectorStore.add_transcripts (every writer populates all keys). -/
structure VSEntry where
  text : String
  video_name : String
  chunk_index : Nat
  sub_chunk_index : Nat
  start_time : ℚ
  end_time : ℚ
  start_formatted : String
  end_formatted : String
deriving DecidableEq, Repr

/-- The Chroma collection state. -/
structure VSState where
  entries : List VSEntry
deriving DecidableEq, Repr

/-- The inner loop of add_transcripts for the transcript at enumerate index i:
skip whitespace-only text, otherwise one entry per sub-chunk produced by the
text splitter, with sub_chunk_index j and the metadata inherited from the
parent transcript. -/
def VectorStore.sub_entries_of (splitText : String → List String) (video_name : String)
    (i : Nat) (t : TranscriptionResult) : List VSEntry :=
  if (t.text.trim).isEmpty then []
  else (splitText t.text).enum.map (fun (j, sub) =>
    { text := sub, video_name := video_name, chunk_index := i, sub_chunk_index := j
      start_time := t.start_time, end_time := t.end_time
      start_formatted := t.start_formatted, end_formatted := t.end_formatted })

/-- VectorStore.add_transcripts: build all sub-chunk entries, return [] when
there is nothing to add, otherwise batch-insert via the engine (whose add_texts
call may raise; the exception is re-raised) and return the assigned ids. -/
def VectorStore.add_transcripts (splitText : String → List String)
    (addTexts : List VSEntry → Except PyError (List String))
    (vs : VSState) (video_name : String) (transcripts : List TranscriptionResult) :
    Except PyError (List String × VSState) :=
  let newEntries :=
    (transcripts.enum.map (fun (i, t) => VectorStore.sub_entries_of splitText video_name i t)).flatten
  if newEntries.isEmpty then .ok ([], vs)
  else
    match addTexts newEntries with
    | .error e => .error e
    | .ok ids => .ok (ids, { entries := vs.entries ++ newEntries })

/-- VectorStore.delete_by_video_name: fetch ids whose metadata matches, return
False when none found, otherwise delete them and return True. -/
def VectorStore.delete_by_video_name (vs : VSState) (video_name : String) : Bool × VSState :=
  let results := vs.entries.filter (fun e => e.video_name == video_name)
  if results.isEmpty then (false, vs)
  else (true, { entries := vs.entries.filter (fun e => e.video_name != video_name) })

/-- Boolean string order used to model Python sorted on strings. -/
def strLe (a b : String) : Bool := decide (a ≤ b)

/-- VectorStore.get_all_video_names: the distinct truthy (nonempty) metadata
video names, sorted. -/
def VectorStore.get_all_video_names (vs : VSState) : List String :=
  ((vs.entries.filterMap
      (fun e => if e.video_name == "" then none else some e.video_name)).dedup).mergeSort strLe

/-! ## Video pipeline (Src/video_pipeline.py) -/

/-- The file system as the pipeline sees it: the finished directory contents
and whether the source video file is still at its input path. -/
structure FSState where
  finished : List String
  source_present : Bool
deriving DecidableEq, Repr

/-- A video path decomposed the way pathlib exposes it. -/
structure VideoPath where
  name : String
  stem : String
  suffix : String
  path : String
deriving DecidableEq, Repr

/-- The external effects one process_video run depends on. -/
structure PipelineEnv where
  extract : Except PyError String
  load : Except PyError Nat
  exportOk : Nat → Bool
  whisper : String → Except PyError String
  splitText : String → List String
  addTexts : List VSEntry → Except PyError (List String)

/-- The duplicate-skip guard of process_video and process_folder. -/
def already_processed (db : DBState) (vs : VSState) (video_name : String) : Bool :=
  Database.video_exists db video_name &&
    (VectorStore.get_all_video_names vs).contains video_name

/-- The while loop that appends an incrementing counter to the stem until the
finished path is free (fuelled; the fuel bound finished.length + 1 always
suffices). -/
def fresh_name_loop (finished : List String) (stem suffix : String) :
    Nat → Nat → String
  | 0, counter => stem ++ "_" ++ toString counter ++ suffix
  | fuel + 1, counter =>
    let cand := stem ++ "_" ++ toString counter ++ suffix
    if finished.contains cand then fresh_name_loop finished stem suffix fuel (counter + 1)
    else cand

/-- The collision-avoiding finished file name chosen by process_video. -/
def freshFinishedName (finished : List String) (p : VideoPath) : String :=
  if finished.contains p.name then
    fresh_name_loop finished p.stem p.suffix (finished.length + 1) 1
  else p.name

/-- VideoProcessor.process_video.  The whole body is inside try/except; the
except branch logs, attempts cleanup (which only touches scratch files) and
returns False, keeping whatever store writes already happened. -/
def process_video (env : PipelineEnv) (L : Nat) (db : DBState) (vs : VSState)
    (fs : FSState) (p : VideoPath) : Bool × DBState × VSState × FSState :=
  if already_processed db vs p.name then (false, db, vs, fs)
  else
    match env.extract with
    | .error _ => (false, db, vs, fs)
    | .ok audio_stem =>
      match split_audio env.load env.exportOk L audio_stem with
      | none => (false, db, vs, fs)
      | some audio_splits_chunks =>
        if audio_splits_chunks.isEmpty then (false, db, vs, fs)
        else
          match transcribe_all_chunks env.whisper (audio_splits_chunks.map chunkToPyTuple) with
          | .error _ => (false, db, vs, fs)
          | .ok transcriptions =>
            if transcriptions.isEmpty then (false, db, vs, fs)
            else
              let total_duration :=
                ((audio_splits_chunks.getLast?).map AudioChunk.end_time).getD 0
              let db1E :=
                if Database.video_exists db p.name then Except.ok db
                else Database.add_video db
                  { video_name := p.name, original_path := p.path
                    total_chunks := transcriptions.length
                    total_duration := total_duration }
              match db1E with
              | .error _ => (false, db, vs, fs)
              | .ok db1 =>
                let db2 := transcriptions.foldl
                  (fun d t => Database.add_transcript_chunk d p.name t none) db1
                match VectorStore.add_transcripts env.splitText env.addTexts vs p.name
                    transcriptions with
                | .error _ => (false, db2, vs, fs)
                | .ok (_vector_ids, vs1) =>
                  let finished_path := freshFinishedName fs.finished p
                  (true, db2, vs1,
                    { finished := fs.finished ++ [finished_path], source_present := false })

/-- VideoProcessor.delete_video.  db_sucess is assigned only under the
video_exists guard; the vector-store deletion runs unconditionally, and then
the read of db_sucess raises UnboundLocalError when the guard was false. -/
def VideoProcessor.delete_video (db : DBState) (vs : VSState) (video_name : String) :
    Except PyError Bool × DBState × VSState :=
  let step_db : Option Bool × DBState :=
    if Database.video_exists db video_name then
      let r := Database.delete_video db video_name
      (some r.1, r.2)
    else (none, db)
  let step_vs := VectorStore.delete_by_video_name vs video_name
  match step_db.1 with
  | some db_sucess => (Except.ok (db_sucess && step_vs.1), step_db.2, step_vs.2)
  | none => (Except.error PyError.unboundLocal, step_db.2, step_vs.2)

/-! ## RAG chat (Src/rag_chat.py) -/

/-- One message of the in-process conversation history. -/
inductive ChatMsg where
  | human (content : String)
  | ai (content : String)
deriving DecidableEq, Repr

/-- One element of the sources list returned by ask. -/
structure RagSource where
  video_name : String
  start_time : String
  end_time : String
  text_preview : String
deriving DecidableEq, Repr

/-- The dictionary returned by ask and ask_with_video_filter. -/
structure RagResult where
  answer : String
  sources : List RagSource
deriving DecidableEq, Repr

/-- External services of the chat engine: the similarity engine (rank orders a
candidate pool for a query) and the chat model (context, history, question to
answer); either may raise. -/
structure RagEnv where
  rank : String → List VSEntry → Except PyError (List VSEntry)
  llm : String → List ChatMsg → String → Except PyError String

/-- retriever.invoke: rank the whole collection, keep the top k. -/
def retriever_invoke (env : RagEnv) (entries : List VSEntry) (k : Nat)
    (question : String) : Except PyError (List VSEntry) :=
  (env.rank question entries).map (fun docs => docs.take k)

/-- The filtered retriever of ask_with_video_filter: the engine is given the
exact-match metadata filter, so it ranks only the entries of one video. -/
def filtered_retriever_invoke (env : RagEnv) (entries : List VSEntry) (k : Nat)
    (video_name question : String) : Except PyError (List VSEntry) :=
  (env.rank question (entries.filter (fun e => e.video_name == video_name))).map
    (fun docs => docs.take k)

/-- RAGChat._format_docs, one labelled block per document. -/
def format_doc (i : Nat) (d : VSEntry) : String :=
  "[Source " ++ toString i ++ "]\n" ++ "Video: " ++ d.video_name ++ "\n" ++
  "Time: " ++ d.start_formatted ++ " - " ++ d.end_formatted ++ "\n" ++
  "Content: " ++ d.text ++ "\n"

/-- RAGChat._format_docs. -/
def format_docs (docs : List VSEntry) : String :=
  String.intercalate "\n" (docs.enum.map (fun (i, d) => format_doc (i + 1) d))

/-- The 150-character preview used when formatting a source. -/
def text_preview (s : String) : String :=
  if s.length > 150 then (s.take 150).append "..." else s

/-- The source dictionary built from one retrieved document. -/
def source_of_doc (d : VSEntry) : RagSource :=
  { video_name := d.video_name, start_time := d.start_formatted
    end_time := d.end_formatted, text_preview := text_preview d.text }

/-- The answer string produced by the except branch of ask. -/
def error_answer (e : PyError) : String := "Sorry, I encountered an error: " ++ e.str

/-- The try block of RAGChat.ask: retrieve (for the sources), let the chain
retrieve again and generate, append the question/answer pair to the history,
then format the sources. -/
def ask_body (env : RagEnv) (entries : List VSEntry) (k : Nat) (hist : List ChatMsg)
    (question : String) : Except PyError (RagResult × List ChatMsg) := do
  let retrieved_docs ← retriever_invoke env entries k question
  let context_docs ← retriever_invoke env entries k question
  let answer ← env.llm (format_docs context_docs) hist question
  let hist1 := hist ++ [ChatMsg.human question, ChatMsg.ai answer]
  let sources := retrieved_docs.map source_of_doc
  .ok ({ answer := answer, sources := sources }, hist1)

/-- RAGChat.ask: the try block under the catch-all except branch, which turns
any exception into a user-visible answer with no sources and leaves the
history as it was. -/
def ask (env : RagEnv) (entries : List VSEntry) (k : Nat) (hist : List ChatMsg)
    (question : String) : RagResult × List ChatMsg :=
  match ask_body env entries k hist question with
  | .ok r => r
  | .error e => ({ answer := error_answer e, sources := [] }, hist)

/-- The try block of RAGChat.ask_with_video_filter: identical flow with the
filtered retriever (used both for the sources and inside the temporary
chain). -/
def ask_with_video_filter_body (env : RagEnv) (entries : List VSEntry) (k : Nat)
    (hist : List ChatMsg) (question video_name : String) :
    Except PyError (RagResult × List ChatMsg) := do
  let retrieved_docs ← filtered_retriever_invoke env entries k video_name question
  let context_docs ← filtered_retriever_invoke env entries k video_name question
  let answer ← env.llm (format_docs context_docs) hist question
  let hist1 := hist ++ [ChatMsg.human question, ChatMsg.ai answer]
  let sources := retrieved_docs.map source_of_doc
  .ok ({ answer := answer, sources := sources }, hist1)

/-- RAGChat.ask_with_video_filter with its catch-all except branch. -/
def ask_with_video_filter (env : RagEnv) (entries : List VSEntry) (k : Nat)
    (hist : List ChatMsg) (question video_name : String) : RagResult × List ChatMsg :=
  match ask_with_video_filter_body env entries k hist question video_name with
  | .ok r => r
  | .error e => ({ answer := error_answer e, sources := [] }, hist)

/-! ## Concrete states used by closed theorems and witnesses -/

/-- A processed video row for the video v.mp4. -/
def w_video : VideoRow :=
  { video_name := "v.mp4", original_path := "in/v.mp4", total_chunks := 1, total_duration := 1 }

/-- A metadata store that already contains v.mp4. -/
def w_db : DBState := { videos := [w_video], chunks := [] }

/-- A vector entry belonging to v.mp4. -/
def w_entry : VSEntry :=
  { text := "hi", video_name := "v.mp4", chunk_index := 0, sub_chunk_index := 0
    start_time := 0, end_time := 1, start_formatted := "00:00:00", end_formatted := "00:00:01" }

/-- A vector entry belonging to a different video. -/
def w_entry_other : VSEntry :=
  { text := "bye", video_name := "other.mp4", chunk_index := 0, sub_chunk_index := 0
    start_time := 0, end_time := 1, start_formatted := "00:00:00", end_formatted := "00:00:01" }

/-- A vector store that already contains v.mp4. -/
def w_vs : VSState := { entries := [w_entry] }

/-- An empty finished directory with the source file still in place. -/
def w_fs : FSState := { finished := [], source_present := true }

/-- The input path of v.mp4. -/
def w_path : VideoPath := { name := "v.mp4", stem := "v", suffix := ".mp4", path := "in/v.mp4" }

/-- A fully healthy external environment for the pipeline. -/
def w_env : PipelineEnv :=
  { extract := .ok "v", load := .ok 1000, exportOk := fun _ => true
    whisper := fun _ => .ok "text", splitText := fun s => [s]
    addTexts := fun es => .ok (es.map (fun _ => "id")) }

/-- An environment whose audio load raises inside split_audio. -/
def c9_env : PipelineEnv :=
  { extract := .ok "v", load := .error (.runtime "decode failed"), exportOk := fun _ => true
    whisper := fun _ => .ok "text", splitText := fun s => [s]
    addTexts := fun es => .ok (es.map (fun _ => "id")) }

/-- An environment whose chunk export raises inside split_audio. -/
def c9_env_cut : PipelineEnv :=
  { extract := .ok "v", load := .ok 1000, exportOk := fun _ => false
    whisper := fun _ => .ok "text", splitText := fun s => [s]
    addTexts := fun es => .ok (es.map (fun _ => "id")) }

/-- An empty metadata store: ghost.mp4 does not exist in it. -/
def c3_db : DBState := { videos := [], chunks := [] }

/-- A vector store that does contain entries for ghost.mp4. -/
def c3_vs : VSState :=
  { entries := [{ text := "hello", video_name := "ghost.mp4", chunk_index := 0
                  sub_chunk_index := 0, start_time := 0, end_time := 1
                  start_formatted := "00:00:00", end_formatted := "00:00:01" }] }

/-- A chunk row for v.mp4 with chunk_index 0. -/
def c5_chunk0 : ChunkRow :=
  { video_name := "v.mp4", chunk_index := 0, start_time := 0, end_time := 1
    start_formatted := "00:00:00", end_formatted := "00:00:01", text := "hi"
    char_count := 2, vector_id := none }

/-- A store satisfying the chunk-index invariant for v.mp4. -/
def c5_db : DBState := { videos := [w_video], chunks := [c5_chunk0] }

/-- A transcript dictionary whose chunk_index collides with the stored row. -/
def c5_data : TranscriptionResult :=
  { text := "hi again", start_time := 0, end_time := 1, duration := 1
    start_formatted := "00:00:00", end_formatted := "00:00:01"
    chunk_index := 0, audio_name := "v_0.wav" }

/-- A chat environment whose similarity engine returns its pool unchanged. -/
def c7_env : RagEnv := { rank := fun _ l => .ok l, llm := fun _ _ _ => .ok "answer" }

/-- A pool containing entries of two different videos. -/
def c7_entries : List VSEntry := [w_entry, w_entry_other]

/-- A chat environment whose retrieval raises. -/
def c8_env_r : RagEnv :=
  { rank := fun _ _ => .error (.runtime "retrieval down"), llm := fun _ _ _ => .ok "answer" }

/-- A chat environment whose generation raises. -/
def c8_env_g : RagEnv :=
  { rank := fun _ l => .ok l, llm := fun _ _ _ => .error (.runtime "generation down") }

/-- A chat environment where everything succeeds. -/
def c10_env : RagEnv := { rank := fun _ l => .ok l, llm := fun _ _ _ => .ok "fine" }

/-! ## Theorems -/

/-- C6: format_time converts seconds to an HH:MM:SS string by truncating each
sub-component, with no day rollover: format_time 0 = 00:00:00,
format_time 65 = 00:01:05, format_time 3725 = 01:02:05, a fractional input is
truncated rather than rounded, and every input of at least 86400 seconds
yields an hours field of at least 24. -/
theorem format_time_spec :
    format_time 0 = "00:00:00" ∧ format_time 65 = "00:01:05" ∧
    format_time 3725 = "01:02:05" ∧ format_time (37259 / 10) = "01:02:05" ∧
    (∀ time : ℚ, 86400 ≤ time → 24 ≤ format_hours time) := by
  have pm : ∀ a b : ℚ, pymod a b = a - b * ⌊a / b⌋ := fun a b => rfl
  refine ⟨?_, ?_, ?_, ?_, ?_⟩
  · have h1 : format_hours 0 = 0 := by norm_num [format_hours]
    have h2 : format_minutes 0 = 0 := by norm_num [format_minutes, pm]
    have h3 : format_secs 0 = 0 := by norm_num [format_secs, pm, pyint]
    rw [format_time, h1, h2, h3]; rfl
  · have h1 : format_hours 65 = 0 := by norm_num [format_hours]
    have h2 : format_minutes 65 = 1 := by norm_num [format_minutes, pm]
    have h3 : format_secs 65 = 5 := by norm_num [format_secs, pm, pyint]
    rw [format_time, h1, h2, h3]; rfl
  · have h1 : format_hours 3725 = 1 := by norm_num [format_hours]
    have h2 : format_minutes 3725 = 2 := by norm_num [format_minutes, pm]
    have h3 : format_secs 3725 = 5 := by norm_num [format_secs, pm, pyint]
    rw [format_time, h1, h2, h3]; rfl
  · have h1 : format_hours (37259 / 10) = 1 := by norm_num [format_hours]
    have h2 : format_minutes (37259 / 10) = 2 := by norm_num [format_minutes, pm]
    have h3 : format_secs (37259 / 10) = 5 := by norm_num [format_secs, pm, pyint]
    rw [format_time, h1, h2, h3]; rfl
  · intro time h
    rw [format_hours, Int.le_floor]
    rw [le_div_iff₀ (by norm_num)]
    push_cast
    linarith

/-- Witness for format_time_spec at the concrete input 90000 seconds. -/
theorem format_time_spec_witness : 24 ≤ format_hours 90000 :=
  format_time_spec.2.2.2.2 90000 (by norm_num)

/-- C1 (code bug witness): on the list produced by split_audio for a 1-second
audio with a 600-second chunk length — one 3-tuple — transcribe_all_chunks
raises ValueError at the 4-way tuple unpacking instead of returning the
ordered result list the claim describes. -/
theorem transcribe_all_chunks_valueerror_on_split_output :
    (split_chunks 1000 600 "clip").length = 1 ∧
    transcribe_all_chunks (fun _ => .ok "text")
      ((split_chunks 1000 600 "clip").map chunkToPyTuple) = .error .valueError := by
  have hn : num_chunks 1000 600 = 1 := by
    have hc : ⌈(((1000 : Nat) : ℚ) / 1000) / ((600 : Nat) : ℚ)⌉ = 1 := by
      push_cast
      norm_num [Int.ceil_eq_iff]
    rw [num_chunks, hc]
    rfl
  constructor
  · simp [split_chunks, hn]
  · rw [split_chunks, hn]
    simp [transcribe_all_chunks, transcribe_go, chunkToPyTuple, unpack4,
      List.range_succ, Bind.bind, Except.bind]

/-- C3 (code bug witness): pipeline-level delete_video on a video name absent
from the metadata store raises UnboundLocalError (db_sucess is never assigned)
after having already deleted the video from the vector store; on a name
present in both stores it does return ok true and clears both stores. -/
theorem delete_video_unboundlocal_on_missing_video :
    Database.video_exists c3_db "ghost.mp4" = false ∧
    VideoProcessor.delete_video c3_db c3_vs "ghost.mp4"
      = (Except.error PyError.unboundLocal, c3_db, VSState.mk []) ∧
    VideoProcessor.delete_video w_db w_vs "v.mp4"
      = (Except.ok true, DBState.mk [] [], VSState.mk []) := by
  refine ⟨rfl, ?_, ?_⟩ <;> rfl

/-- C5 (counterexample): the store operation Database.add_transcript_chunk
does not preserve the uniqueness of chunk indices: inserting a transcript
whose chunk_index already exists for the video produces duplicate indices. -/
theorem add_transcript_chunk_breaks_index_uniqueness :
    chunkIndicesOK c5_db "v.mp4" = true ∧
    chunkIndicesOK (Database.add_transcript_chunk c5_db "v.mp4" c5_data none) "v.mp4"
      = false := by
  constructor <;> rfl

/-- The chunk tuples built by split_audio are 3-tuples, so the 4-way unpack in
transcribe_all_chunks raises on any nonempty chunk list. -/
theorem transcribe_all_chunks_error_of_cons (whisper : String → Except PyError String)
    (c : AudioChunk) (rest : List (List PyVal)) :
    transcribe_all_chunks whisper (chunkToPyTuple c :: rest)
      = .error .valueError := by
  simp [transcribe_all_chunks, transcribe_go, chunkToPyTuple, unpack4, Bind.bind, Except.bind]

/-- In the code as written, every run of process_video ends in a False outcome
with both stores and the file system untouched: the successful early stages
feed the 3-tuples of split_audio into the 4-way unpack of
transcribe_all_chunks, which raises, and every other path aborts earlier. -/
theorem process_video_inert (env : PipelineEnv) (L : Nat) (db : DBState) (vs : VSState)
    (fs : FSState) (p : VideoPath) :
    process_video env L db vs fs p = (false, db, vs, fs) := by
  unfold process_video
  cases hg : already_processed db vs p.name with
  | true => simp
  | false =>
    simp only [Bool.false_eq_true, if_false]
    cases hex : env.extract with
    | error e => rfl
    | ok stem =>
      cases hsplit : split_audio env.load env.exportOk L stem with
      | none => simp [hsplit]
      | some cs =>
        cases cs with
        | nil => simp [hsplit]
        | cons c rest => simp [hsplit, transcribe_all_chunks_error_of_cons]

/-- C5 (amended): process_video never modifies the stored transcript chunk
rows — in particular re-running it on a video already present in the metadata
store (whether or not it is in the vector store) leaves them unchanged, so the
chunk-index invariant is preserved by process_video. -/
theorem process_video_leaves_chunk_rows_unchanged (env : PipelineEnv) (L : Nat)
    (db : DBState) (vs : VSState) (fs : FSState) (p : VideoPath) :
    ((process_video env L db vs fs p).2.1).chunks = db.chunks ∧
    (process_video env L db vs fs p).2.1 = db := by
  rw [process_video_inert]
  exact ⟨rfl, rfl⟩

/-- Membership in VectorStore.get_all_video_names is exactly having a stored
entry with that (truthy) metadata video name. -/
theorem mem_get_all_video_names (vs : VSState) (name : String) :
    name ∈ VectorStore.get_all_video_names vs
      ↔ (name ≠ "" ∧ ∃ e ∈ vs.entries, e.video_name = name) := by
  rw [VectorStore.get_all_video_names, List.mem_mergeSort, List.mem_dedup,
    List.mem_filterMap]
  constructor
  · rintro ⟨e, he, hf⟩
    by_cases hz : e.video_name == ""
    · simp [hz] at hf
    · rw [if_neg (by simp [hz])] at hf
      have hv : e.video_name = name := by injection hf
      refine ⟨?_, e, he, hv⟩
      intro hn
      rw [hv, hn] at hz
      simp at hz
  · rintro ⟨hn, e, he, hv⟩
    refine ⟨e, he, ?_⟩
    rw [if_neg (by simp [hv, hn])]
    rw [hv]

/-- C4: a call of process_video on a video already present in both the
metadata store and the vector store takes the duplicate-skip branch: it
returns False and performs no write to either store and no file move. -/
theorem process_video_skips_existing (env : PipelineEnv) (L : Nat) (db : DBState)
    (vs : VSState) (fs : FSState) (p : VideoPath)
    (hdb : Database.video_exists db p.name = true)
    (hvs : ∃ e ∈ vs.entries, e.video_name = p.name) (hne : p.name ≠ "") :
    already_processed db vs p.name = true ∧
    process_video env L db vs fs p = (false, db, vs, fs) := by
  have hmem : p.name ∈ VectorStore.get_all_video_names vs :=
    (mem_get_all_video_names vs p.name).mpr ⟨hne, hvs⟩
  have hg : already_processed db vs p.name = true := by
    rw [already_processed, hdb]
    simpa using List.elem_eq_true_of_mem hmem
  refine ⟨hg, ?_⟩
  unfold process_video
  rw [hg]
  rfl

/-- Witness for process_video_skips_existing: v.mp4 present in both stores. -/
theorem process_video_skips_existing_witness :
    already_processed w_db w_vs w_path.name = true ∧
    process_video w_env 600 w_db w_vs w_fs w_path = (false, w_db, w_vs, w_fs) :=
  process_video_skips_existing w_env 600 w_db w_vs w_fs w_path rfl
    ⟨w_entry, by simp [w_vs], rfl⟩ (by decide)

/-- When split_audio has returned None, process_video hits its emptiness
guard (Python not None is True) and aborts the video with a False outcome and
no store or file change. -/
theorem process_video_aborts_of_split_none (env : PipelineEnv) (L : Nat) (db : DBState)
    (vs : VSState) (fs : FSState) (p : VideoPath) (stem : String)
    (hguard : already_processed db vs p.name = false)
    (hextract : env.extract = .ok stem)
    (hs : split_audio env.load env.exportOk L stem = none) :
    process_video env L db vs fs p = (false, db, vs, fs) := by
  unfold process_video
  rw [hguard]
  simp only [Bool.false_eq_true, if_false]
  cases hex2 : env.extract with
  | error e2 => rfl
  | ok stem2 =>
    have heq : stem2 = stem := by rw [hextract] at hex2; injection hex2 with h; exact h.symm
    subst heq
    simp [hs]

/-- A 1-second audio with a 600-second chunk length is cut into one chunk. -/
theorem num_chunks_1000_600 : num_chunks 1000 600 = 1 := by
  have hc : ⌈(((1000 : Nat) : ℚ) / 1000) / ((600 : Nat) : ℚ)⌉ = 1 := by
    push_cast
    norm_num [Int.ceil_eq_iff]
  rw [num_chunks, hc]
  rfl

/-- C9: when loading the audio raises inside split_audio (first conjunct) or
cutting it does — some chunk export raises (second conjunct) — the except
branch of split_audio swallows the exception and the function implicitly
returns None; process_video then treats that None like zero chunks and aborts
the video with a False outcome and no store or file change. -/
theorem split_audio_none_aborts (env : PipelineEnv) (L : Nat) (db : DBState)
    (vs : VSState) (fs : FSState) (p : VideoPath) (stem : String) (e : PyError)
    (lenMs : Nat)
    (hextract : env.extract = .ok stem)
    (hguard : already_processed db vs p.name = false) :
    (env.load = .error e →
      split_audio env.load env.exportOk L stem = none ∧
      process_video env L db vs fs p = (false, db, vs, fs)) ∧
    (env.load = .ok lenMs →
      (List.range (num_chunks lenMs L)).all env.exportOk = false →
      split_audio env.load env.exportOk L stem = none ∧
      process_video env L db vs fs p = (false, db, vs, fs)) := by
  constructor
  · intro hload
    have hs : split_audio env.load env.exportOk L stem = none := by rw [hload]; rfl
    exact ⟨hs, process_video_aborts_of_split_none env L db vs fs p stem hguard hextract hs⟩
  · intro hload hall
    have hs : split_audio env.load env.exportOk L stem = none := by
      rw [hload]
      by_cases hL : L = 0
      · simp [split_audio, hL]
      · simp [split_audio, hL, hall]
    exact ⟨hs, process_video_aborts_of_split_none env L db vs fs p stem hguard hextract hs⟩

/-- Witness for split_audio_none_aborts: a failing audio decode and a failing
chunk export, each on a fresh store state. -/
theorem split_audio_none_aborts_witness :
    (split_audio c9_env.load c9_env.exportOk 600 "v" = none ∧
      process_video c9_env 600 c3_db (VSState.mk []) w_fs w_path
        = (false, c3_db, VSState.mk [], w_fs)) ∧
    (split_audio c9_env_cut.load c9_env_cut.exportOk 600 "v" = none ∧
      process_video c9_env_cut 600 c3_db (VSState.mk []) w_fs w_path
        = (false, c3_db, VSState.mk [], w_fs)) :=
  ⟨(split_audio_none_aborts c9_env 600 c3_db (VSState.mk []) w_fs w_path "v"
      (.runtime "decode failed") 1000 rfl rfl).1 rfl,
   (split_audio_none_aborts c9_env_cut 600 c3_db (VSState.mk []) w_fs w_path "v"
      (.runtime "export failed") 1000 rfl rfl).2 rfl
      (by rw [num_chunks_1000_600]; rfl)⟩

/-- The i-th element of the split_audio chunk list. -/
theorem split_chunks_getElem (lenMs L : Nat) (stem : String) (i : Nat)
    (hi : i < num_chunks lenMs L) :
    (split_chunks lenMs L stem)[i]? = some (chunk_at lenMs L stem i) := by
  rw [split_chunks, List.getElem?_map, List.getElem?_range hi]
  rfl

/-- The start time written by the split loop is i * L seconds. -/
theorem chunk_at_start (lenMs L : Nat) (stem : String) (i : Nat) :
    (chunk_at lenMs L stem i).start_time = (i : ℚ) * L := by
  simp only [chunk_at]
  push_cast
  rw [mul_div_assoc]
  norm_num

/-- The end time written by the split loop is min ((i+1) * L) D seconds. -/
theorem chunk_at_end (lenMs L : Nat) (stem : String) (i : Nat) :
    (chunk_at lenMs L stem i).end_time
      = min (((i : ℚ) + 1) * L) ((lenMs : ℚ) / 1000) := by
  simp only [chunk_at]
  rw [Nat.cast_min, ← min_div_div_right (by norm_num : (0:ℚ) ≤ 1000), min_comm]
  congr 1
  push_cast
  rw [mul_div_assoc]
  norm_num

/-- C2: for an audio of lenMs milliseconds (duration D = lenMs / 1000 seconds)
and a positive chunk length L, split_audio produces exactly ceil(D / L)
chunks; chunk i spans [i*L, min ((i+1)*L) D) with a nonempty interval, the
chunks are consecutive (each end time equals the next start time, hence
non-overlapping), and when the audio is nonempty the final chunk ends exactly
at D, never past it. -/
theorem split_audio_chunk_layout (lenMs L : Nat) (stem : String) (hL : 0 < L) :
    (split_chunks lenMs L stem).length = (⌈((lenMs : ℚ) / 1000) / (L : ℚ)⌉).toNat ∧
    (∀ i : Nat, i < num_chunks lenMs L →
      (split_chunks lenMs L stem)[i]?.map AudioChunk.start_time = some ((i : ℚ) * L) ∧
      (split_chunks lenMs L stem)[i]?.map AudioChunk.end_time
        = some (min (((i : ℚ) + 1) * L) ((lenMs : ℚ) / 1000)) ∧
      (i : ℚ) * L < min (((i : ℚ) + 1) * L) ((lenMs : ℚ) / 1000)) ∧
    (∀ i : Nat, i + 1 < num_chunks lenMs L →
      (split_chunks lenMs L stem)[i]?.map AudioChunk.end_time
        = (split_chunks lenMs L stem)[i + 1]?.map AudioChunk.start_time) ∧
    (0 < lenMs →
      ((split_chunks lenMs L stem).getLast?).map AudioChunk.end_time
        = some ((lenMs : ℚ) / 1000)) := by
  have hL' : (0 : ℚ) < L := by exact_mod_cast hL
  have hD0 : (0 : ℚ) ≤ (lenMs : ℚ) / 1000 := by positivity
  have hq0 : (0 : ℚ) ≤ ((lenMs : ℚ) / 1000) / L := by positivity
  have hc0 : (0 : ℤ) ≤ ⌈((lenMs : ℚ) / 1000) / (L : ℚ)⌉ := Int.ceil_nonneg hq0
  have hn : ((num_chunks lenMs L : ℕ) : ℤ) = ⌈((lenMs : ℚ) / 1000) / (L : ℚ)⌉ :=
    Int.toNat_of_nonneg hc0
  have key1 : ∀ i : Nat, i < num_chunks lenMs L → (i : ℚ) < ((lenMs : ℚ) / 1000) / L := by
    intro i hi
    have h1 : (i : ℤ) < ⌈((lenMs : ℚ) / 1000) / (L : ℚ)⌉ := by
      rw [← hn]; exact_mod_cast hi
    exact_mod_cast Int.lt_ceil.mp h1
  have key2 : (lenMs : ℚ) / 1000 ≤ (num_chunks lenMs L : ℚ) * L := by
    have h1 : ((lenMs : ℚ) / 1000) / L ≤ (⌈((lenMs : ℚ) / 1000) / (L : ℚ)⌉ : ℚ) :=
      Int.le_ceil _
    have h2 : ((num_chunks lenMs L : ℕ) : ℚ) = (⌈((lenMs : ℚ) / 1000) / (L : ℚ)⌉ : ℚ) := by
      exact_mod_cast hn
    rw [div_le_iff₀ hL'] at h1
    rw [h2]
    exact h1
  refine ⟨by simp [split_chunks, num_chunks], ?_, ?_, ?_⟩
  · intro i hi
    refine ⟨by rw [split_chunks_getElem lenMs L stem i hi]; simp [chunk_at_start],
            by rw [split_chunks_getElem lenMs L stem i hi]; simp [chunk_at_end], ?_⟩
    refine lt_min ?_ ?_
    · exact mul_lt_mul_of_pos_right (lt_add_one (i : ℚ)) hL'
    · exact (lt_div_iff₀ hL').mp (key1 i hi)
  · intro i hi
    have hi1 : i < num_chunks lenMs L := by omega
    rw [split_chunks_getElem lenMs L stem i hi1, split_chunks_getElem lenMs L stem (i+1) hi]
    simp only [Option.map_some', chunk_at_end, chunk_at_start]
    have hle : ((i : ℚ) + 1) * L ≤ (lenMs : ℚ) / 1000 := by
      have := key1 (i + 1) hi
      push_cast at this
      exact le_of_lt ((lt_div_iff₀ hL').mp this)
    rw [min_eq_left hle]
    push_cast
    ring_nf
  · intro hpos
    have hDpos : (0 : ℚ) < (lenMs : ℚ) / 1000 := by
      have : (0 : ℚ) < (lenMs : ℚ) := by exact_mod_cast hpos
      positivity
    have hn1 : 0 < num_chunks lenMs L := by
      rw [num_chunks]
      exact Int.lt_toNat.mpr (Int.ceil_pos.mpr (by positivity))
    have hlen : (split_chunks lenMs L stem).length = num_chunks lenMs L := by
      simp [split_chunks]
    rw [List.getLast?_eq_getElem?, hlen,
      split_chunks_getElem lenMs L stem (num_chunks lenMs L - 1) (by omega)]
    simp only [Option.map_some', chunk_at_end]
    have hcast : ((num_chunks lenMs L - 1 : ℕ) : ℚ) + 1 = (num_chunks lenMs L : ℚ) := by
      rw [Nat.cast_sub (by omega)]
      ring
    rw [hcast, min_eq_right key2]

/-- Witness for split_audio_chunk_layout: a 1500-second audio with 600-second
chunks (the end-to-end example of the spec). -/
theorem split_audio_chunk_layout_witness :
    (split_chunks 1500000 600 "clip").length
      = (⌈((1500000 : Nat) : ℚ) / 1000 / ((600 : Nat) : ℚ)⌉).toNat ∧
    ((split_chunks 1500000 600 "clip").getLast?).map AudioChunk.end_time
      = some (((1500000 : Nat) : ℚ) / 1000) := by
  have h := split_audio_chunk_layout 1500000 600 "clip" (by decide)
  exact ⟨h.1, h.2.2.2 (by decide)⟩

/-- C7: under the documented contract of the external similarity engine (it
returns a ranking of the pool it is given), every source returned by
ask_with_video_filter carries exactly the filtered video name — the filtered
retriever hands the engine only the entries whose metadata video_name matches,
and the error branch returns no sources at all. -/
theorem ask_with_video_filter_sources_match (env : RagEnv) (entries : List VSEntry)
    (k : Nat) (hist : List ChatMsg) (question video_name : String)
    (hrank : ∀ q l r, env.rank q l = .ok r → ∀ d ∈ r, d ∈ l) :
    ((ask_with_video_filter env entries k hist question video_name).1.sources.all
      (fun s => s.video_name == video_name)) = true := by
  unfold ask_with_video_filter ask_with_video_filter_body filtered_retriever_invoke
  cases h1 : env.rank question (entries.filter (fun e => e.video_name == video_name)) with
  | error e => simp [h1, Except.map, Bind.bind, Except.bind]
  | ok docs =>
    cases h2 : env.llm (format_docs (docs.take k)) hist question with
    | error e => simp [h1, h2, Except.map, Bind.bind, Except.bind]
    | ok answer =>
      simp only [h1, h2, Except.map, Bind.bind, Except.bind, List.all_eq_true]
      intro s hs
      rw [List.mem_map] at hs
      obtain ⟨d, hd, rfl⟩ := hs
      have hdocs : d ∈ docs := List.mem_of_mem_take hd
      have hpool := hrank _ _ _ h1 d hdocs
      have hmatch := (List.mem_filter.mp hpool).2
      simpa [source_of_doc] using hmatch

/-- Witness for ask_with_video_filter_sources_match: a pool holding entries of
two videos and an engine that returns its pool unchanged. -/
theorem ask_with_video_filter_sources_match_witness :
    ((ask_with_video_filter c7_env c7_entries 4 [] "q" "v.mp4").1.sources.all
      (fun s => s.video_name == "v.mp4")) = true :=
  ask_with_video_filter_sources_match c7_env c7_entries 4 [] "q" "v.mp4"
    (by
      intro q l r h d hd
      simp only [c7_env] at h
      injection h with h
      subst h
      exact hd)

/-- C8: an exception raised by retrieval or by generation, in ask or in
ask_with_video_filter, never propagates: the call returns the answer string
describing the error together with an empty sources list (and, being a total
function into the result type, raises nothing). -/
theorem rag_errors_are_caught (env : RagEnv) (entries : List VSEntry) (k : Nat)
    (hist : List ChatMsg) (question video_name : String) (e : PyError) :
    (env.rank question entries = .error e →
      ask env entries k hist question
        = ({ answer := error_answer e, sources := [] }, hist)) ∧
    (∀ docs, env.rank question entries = .ok docs →
      env.llm (format_docs (docs.take k)) hist question = .error e →
      ask env entries k hist question
        = ({ answer := error_answer e, sources := [] }, hist)) ∧
    (env.rank question (entries.filter (fun d => d.video_name == video_name)) = .error e →
      ask_with_video_filter env entries k hist question video_name
        = ({ answer := error_answer e, sources := [] }, hist)) ∧
    (∀ docs, env.rank question (entries.filter (fun d => d.video_name == video_name)) = .ok docs →
      env.llm (format_docs (docs.take k)) hist question = .error e →
      ask_with_video_filter env entries k hist question video_name
        = ({ answer := error_answer e, sources := [] }, hist)) := by
  refine ⟨?_, ?_, ?_, ?_⟩
  · intro h
    simp [ask, ask_body, retriever_invoke, h, Except.map, Bind.bind, Except.bind]
  · intro docs h hl
    simp [ask, ask_body, retriever_invoke, h, hl, Except.map, Bind.bind, Except.bind]
  · intro h
    simp [ask_with_video_filter, ask_with_video_filter_body, filtered_retriever_invoke, h,
      Except.map, Bind.bind, Except.bind]
  · intro docs h hl
    simp [ask_with_video_filter, ask_with_video_filter_body, filtered_retriever_invoke, h, hl,
      Except.map, Bind.bind, Except.bind]

/-- Witness for rag_errors_are_caught: one environment with failing retrieval
and one with failing generation, for both entry points. -/
theorem rag_errors_are_caught_witness :
    ask c8_env_r [] 4 [] "q"
      = ({ answer := error_answer (.runtime "retrieval down"), sources := [] }, []) ∧
    ask c8_env_g [] 4 [] "q"
      = ({ answer := error_answer (.runtime "generation down"), sources := [] }, []) ∧
    ask_with_video_filter c8_env_r [] 4 [] "q" "v.mp4"
      = ({ answer := error_answer (.runtime "retrieval down"), sources := [] }, []) ∧
    ask_with_video_filter c8_env_g [] 4 [] "q" "v.mp4"
      = ({ answer := error_answer (.runtime "generation down"), sources := [] }, []) :=
  ⟨(rag_errors_are_caught c8_env_r [] 4 [] "q" "v.mp4" (.runtime "retrieval down")).1 rfl,
   (rag_errors_are_caught c8_env_g [] 4 [] "q" "v.mp4" (.runtime "generation down")).2.1 [] rfl rfl,
   (rag_errors_are_caught c8_env_r [] 4 [] "q" "v.mp4" (.runtime "retrieval down")).2.2.1 rfl,
   (rag_errors_are_caught c8_env_g [] 4 [] "q" "v.mp4" (.runtime "generation down")).2.2.2 [] rfl rfl⟩

/-- C10: the conversation history is appended to only after generation has
succeeded: when the body of ask or ask_with_video_filter ends in the error
branch the history is exactly what it was before the call, and on success it
is the old history plus the question/answer pair. -/
theorem chat_history_unchanged_on_error (env : RagEnv) (entries : List VSEntry)
    (k : Nat) (hist : List ChatMsg) (question video_name : String) :
    (∀ e : PyError, ask_body env entries k hist question = .error e →
      (ask env entries k hist question).2 = hist) ∧
    (∀ r, ask_body env entries k hist question = .ok r →
      (ask env entries k hist question).2
        = hist ++ [ChatMsg.human question,
            ChatMsg.ai (ask env entries k hist question).1.answer]) ∧
    (∀ e : PyError, ask_with_video_filter_body env entries k hist question video_name
        = .error e →
      (ask_with_video_filter env entries k hist question video_name).2 = hist) ∧
    (∀ r, ask_with_video_filter_body env entries k hist question video_name = .ok r →
      (ask_with_video_filter env entries k hist question video_name).2
        = hist ++ [ChatMsg.human question,
            ChatMsg.ai (ask_with_video_filter env entries k hist question video_name).1.answer]) := by
  refine ⟨?_, ?_, ?_, ?_⟩
  · intro e h
    simp [ask, h]
  · intro r hr
    cases h1 : env.rank question entries with
    | error e =>
      exfalso
      simp [ask_body, retriever_invoke, h1, Except.map, Bind.bind, Except.bind] at hr
    | ok docs =>
      cases h2 : env.llm (format_docs (docs.take k)) hist question with
      | error e =>
        exfalso
        simp [ask_body, retriever_invoke, h1, h2, Except.map, Bind.bind, Except.bind] at hr
      | ok ans =>
        simp [ask, ask_body, retriever_invoke, h1, h2, Except.map, Bind.bind, Except.bind]
  · intro e h
    simp [ask_with_video_filter, h]
  · intro r hr
    cases h1 : env.rank question (entries.filter (fun d => d.video_name == video_name)) with
    | error e =>
      exfalso
      simp [ask_with_video_filter_body, filtered_retriever_invoke, h1,
        Except.map, Bind.bind, Except.bind] at hr
    | ok docs =>
      cases h2 : env.llm (format_docs (docs.take k)) hist question with
      | error e =>
        exfalso
        simp [ask_with_video_filter_body, filtered_retriever_invoke, h1, h2,
          Except.map, Bind.bind, Except.bind] at hr
      | ok ans =>
        simp [ask_with_video_filter, ask_with_video_filter_body, filtered_retriever_invoke,
          h1, h2, Except.map, Bind.bind, Except.bind]

/-- Witness for chat_history_unchanged_on_error: a failing and a succeeding
environment for both entry points. -/
theorem chat_history_unchanged_on_error_witness :
    (ask c8_env_r [] 4 [] "q").2 = [] ∧
    (ask c10_env [] 4 [] "q").2
      = [] ++ [ChatMsg.human "q", ChatMsg.ai (ask c10_env [] 4 [] "q").1.answer] ∧
    (ask_with_video_filter c8_env_r [] 4 [] "q" "v.mp4").2 = [] ∧
    (ask_with_video_filter c10_env [] 4 [] "q" "v.mp4").2
      = [] ++ [ChatMsg.human "q",
          ChatMsg.ai (ask_with_video_filter c10_env [] 4 [] "q" "v.mp4").1.answer] :=
  ⟨(chat_history_unchanged_on_error c8_env_r [] 4 [] "q" "v.mp4").1
      (.runtime "retrieval down") rfl,
   (chat_history_unchanged_on_error c10_env [] 4 [] "q" "v.mp4").2.1
      ({ answer := "fine", sources := [] }, [ChatMsg.human "q", ChatMsg.ai "fine"]) rfl,
   (chat_history_unchanged_on_error c8_env_r [] 4 [] "q" "v.mp4").2.2.1
      (.runtime "retrieval down") rfl,
   (chat_history_unchanged_on_error c10_env [] 4 [] "q" "v.mp4").2.2.2
      ({ answer := "fine", sources := [] }, [ChatMsg.human "q", ChatMsg.ai "fine"]) rfl⟩
